import Mathlib

/-!
Verification of the training pipeline in
`src/training_pipeline/training.py`: the optimizer resolver
(`get_optimizer`), the training/evaluation loop driver
(`run_training_loop`) and the architecture dispatch in `train`.

Numeric loss/metric values are modelled as rationals, so that the
averaging identities are exact.  Python's `ZeroDivisionError` is made
explicit (Lean's division by zero would silently return 0).
-/

deriving instance DecidableEq for Except

namespace MushroomTraining

/-- The three optimizer families constructed by `get_optimizer`
(`torch.optim.Adam`, `torch.optim.SGD`, `torch.optim.RMSprop`). -/
inductive OptimizerFamily
  | adam
  | sgd
  | rmsprop
deriving DecidableEq

/-- Errors surfaced by the pipeline.  `unsupportedOptimizer` models the
`NotImplementedError` raised by `get_optimizer` for an unrecognized name;
`invalidParam` models the `TypeError`/`ValueError` raised inside a torch
optimizer constructor when a hyperparameter fails its validation
comparison (in particular a `None` value, Python `0.0 <= None`);
`zeroDivisionError` models Python's `ZeroDivisionError`;
`nameError` models the `NameError` hit by `return [val_loss_avg, ...]`
when zero epochs ran;
`emptyDataset` is the error named by the spec's taxonomy — the code never
raises it, it is declared here so the distinction is statable. -/
inductive PipelineError
  | unsupportedOptimizer
  | invalidParam
  | zeroDivisionError
  | nameError
  | emptyDataset
deriving DecidableEq

/-- A constructed, bound optimizer: its family and the hyperparameters the
constructor stored.  `momentum` is `none` for Adam, whose constructor takes
no momentum argument. -/
structure OptimizerCfg where
  family : OptimizerFamily
  lr : ℚ
  weightDecay : ℚ
  momentum : Option ℚ
deriving DecidableEq

/-- Constructor `torch.optim.Adam(params, lr, weight_decay)` as called by
`get_optimizer`.  The constructor validates `0.0 <= lr` then
`0.0 <= weight_decay`; a `None` weight_decay fails that comparison with a
`TypeError` (modelled as `invalidParam`, like a negative value's
`ValueError`). -/
def torchAdam (lr : ℚ) (weight_decay : Option ℚ) : Except PipelineError OptimizerCfg :=
  if lr < 0 then Except.error PipelineError.invalidParam
  else
    match weight_decay with
    | none => Except.error PipelineError.invalidParam
    | some w =>
      if w < 0 then Except.error PipelineError.invalidParam
      else Except.ok ⟨OptimizerFamily.adam, lr, w, none⟩

/-- Constructor `torch.optim.SGD(params, lr, momentum, weight_decay)` as called by
`get_optimizer`.  Validation order: `lr`, then `momentum`, then
`weight_decay`; a `None` momentum or weight_decay fails its comparison
with a `TypeError`. -/
def torchSGD (lr : ℚ) (momentum : Option ℚ) (weight_decay : Option ℚ) :
    Except PipelineError OptimizerCfg :=
  if lr < 0 then Except.error PipelineError.invalidParam
  else
    match momentum with
    | none => Except.error PipelineError.invalidParam
    | some m =>
      if m < 0 then Except.error PipelineError.invalidParam
      else
        match weight_decay with
        | none => Except.error PipelineError.invalidParam
        | some w =>
          if w < 0 then Except.error PipelineError.invalidParam
          else Except.ok ⟨OptimizerFamily.sgd, lr, w, some m⟩

/-- Constructor `torch.optim.RMSprop(params, lr, weight_decay, momentum)` as called by
`get_optimizer`.  Validation order: `lr`, then `momentum`, then
`weight_decay`; a `None` momentum or weight_decay fails its comparison
with a `TypeError`. -/
def torchRMSprop (lr : ℚ) (weight_decay : Option ℚ) (momentum : Option ℚ) :
    Except PipelineError OptimizerCfg :=
  if lr < 0 then Except.error PipelineError.invalidParam
  else
    match momentum with
    | none => Except.error PipelineError.invalidParam
    | some m =>
      if m < 0 then Except.error PipelineError.invalidParam
      else
        match weight_decay with
        | none => Except.error PipelineError.invalidParam
        | some w =>
          if w < 0 then Except.error PipelineError.invalidParam
          else Except.ok ⟨OptimizerFamily.rmsprop, lr, w, some m⟩

/-- Function `get_optimizer` from `training.py`.  The dict
`optimizers_and_likely_spellings` is built eagerly: all three constructors
run (Adam, SGD, RMSprop, in that order — every spelling of a family maps to
the one instance built here) before the name is looked up.  Then:
`if optimizer_name in keys: return it; elif optimizer_name is None: return
adam; else: raise NotImplementedError`. -/
def get_optimizer (optimizer_name : Option String) (learning_rate : ℚ)
    (weight_decay : Option ℚ) (momentum : Option ℚ) :
    Except PipelineError OptimizerCfg := do
  let adam ← torchAdam learning_rate weight_decay
  let sgd ← torchSGD learning_rate momentum weight_decay
  let rmsprop ← torchRMSprop learning_rate weight_decay momentum
  if optimizer_name = some "adam" ∨ optimizer_name = some "Adam" then
    Except.ok adam
  else if optimizer_name = some "sgd" ∨ optimizer_name = some "SGD" then
    Except.ok sgd
  else if optimizer_name = some "rmsprop" ∨ optimizer_name = some "RMSprop" ∨
      optimizer_name = some "RMSProp" then
    Except.ok rmsprop
  else if optimizer_name = none then
    Except.ok adam
  else
    Except.error PipelineError.unsupportedOptimizer

example : get_optimizer (some "adam") 1 (some 0) (some 0) =
    Except.ok ⟨OptimizerFamily.adam, 1, 0, none⟩ := by decide

example : get_optimizer (some "unknown") 1 (some 0) (some 0) =
    Except.error PipelineError.unsupportedOptimizer := by decide

example : get_optimizer (some "adam") 1 (some 0) none =
    Except.error PipelineError.invalidParam := by decide

example : get_optimizer none 1 (some 0) (some 0) =
    Except.ok ⟨OptimizerFamily.adam, 1, 0, none⟩ := by decide

/-- The two mutually exclusive modes of a torch module: `model.train()`
sets `training`, `model.eval()` sets `evaluation`. -/
inductive Mode
  | training
  | evaluation
deriving DecidableEq

/-- The model as the loop driver sees it: its trainable parameters (of an
abstract type `P`, mutated in place by `optimizer.step()`) and its current
mode flag. -/
structure TorchModel (P : Type) where
  params : P
  mode : Mode
deriving DecidableEq

/-- Observable events of one `run_training_loop` call, in program order:
the `model_fn.train()` / `model_fn.eval()` calls, the processing of each
training/validation batch — recording the model's mode flag and whether
torch gradient tracking is enabled while that batch is processed (`false`
inside the `with torch.no_grad():` block) — and the `torch.save` call. -/
inductive LoopEvent (P : Type)
  | setTrain (epoch : ℕ)
  | trainBatch (epoch : ℕ) (mode : Mode) (gradTracking : Bool)
  | setEval (epoch : ℕ)
  | valBatch (epoch : ℕ) (mode : Mode) (gradTracking : Bool)
  | saveCall (blob : P)
deriving DecidableEq

/-- One epoch's reported averages, in the order of the `val_metrics`
mapping logged by the code: average training loss, then average validation
loss, accuracy, recall, precision. -/
structure EpochLog where
  trainingLossAvg : ℚ
  valLossAvg : ℚ
  valAccuracyAvg : ℚ
  valRecallAvg : ℚ
  valPrecisionAvg : ℚ
deriving DecidableEq

/-- The collaborators `run_training_loop` consumes, abstracted over the
parameter type `P` and batch type `B`:
`lossOf p b` is `criterion(model_fn.forward(images), labels).item()` at
parameters `p` on batch `b`; `step p b` is the parameter update performed
by `zero_grad` / `backward` / `optimizer.step()` on that batch;
`recallOf`/`accuracyOf`/`precisionOf` are the per-batch values returned by
the torchmetrics objects on the batch's arg-max predictions and labels. -/
structure LoopFns (P B : Type) where
  lossOf : P → B → ℚ
  step : P → B → P
  recallOf : P → B → ℚ
  accuracyOf : P → B → ℚ
  precisionOf : P → B → ℚ

/-- Python's `/` on a running total and a batch count: raises
`ZeroDivisionError` when the count is zero (Lean's own `/` would silently
return 0 there, which is exactly the behavior the code does NOT have). -/
def pydiv (a : ℚ) (n : ℕ) : Except PipelineError ℚ :=
  if n = 0 then Except.error PipelineError.zeroDivisionError
  else Except.ok (a / n)

/-- Phase T inner loop: for each training batch, the loss at the current
parameters is added to the running total and the optimizer updates the
parameters.  Returns (final parameters, running loss total, the trace of
per-batch events).  The mode flag is whatever `model_fn.train()` set; no
statement in the loop body changes it, and gradient tracking is on
(no `no_grad` scope in phase T). -/
def trainPhase {P B : Type} (F : LoopFns P B) (e : ℕ) (mode : Mode) (p : P) :
    List B → P × ℚ × List (LoopEvent P)
  | [] => (p, 0, [])
  | b :: bs =>
    let rest := trainPhase F e mode (F.step p b) bs
    (rest.1, F.lossOf p b + rest.2.1, LoopEvent.trainBatch e mode true :: rest.2.2)

/-- The sequence of per-batch training loss values observed in phase T:
the loss of each batch at the parameters in force when that batch is
processed. -/
def trainLosses {P B : Type} (F : LoopFns P B) (p : P) : List B → List ℚ
  | [] => []
  | b :: bs => F.lossOf p b :: trainLosses F (F.step p b) bs

/-- The parameters after one full phase-T pass over the training stream. -/
def trainEndParams {P B : Type} (F : LoopFns P B) (p : P) : List B → P
  | [] => p
  | b :: bs => trainEndParams F (F.step p b) bs

/-- Phase V inner loop: parameters are frozen; each validation batch adds
its loss, recall, accuracy and precision values to four running totals
(in the code's accumulation order).  Runs inside `with torch.no_grad():`,
so gradient tracking is recorded as off. -/
def valPhase {P B : Type} (F : LoopFns P B) (e : ℕ) (mode : Mode) (p : P) :
    List B → (ℚ × ℚ × ℚ × ℚ) × List (LoopEvent P)
  | [] => ((0, 0, 0, 0), [])
  | b :: bs =>
    let rest := valPhase F e mode p bs
    ((F.lossOf p b + rest.1.1, F.recallOf p b + rest.1.2.1,
      F.accuracyOf p b + rest.1.2.2.1, F.precisionOf p b + rest.1.2.2.2),
     LoopEvent.valBatch e mode false :: rest.2)

/-- One epoch of `run_training_loop`: `model_fn.train()`, the training
pass, `training_loss_avg = training_loss_total / len(train_iterator)`,
`model_fn.eval()`, the validation pass under `torch.no_grad()`, then the
four divisions by `len(val_iterator)` in source order (loss, recall,
accuracy, precision).  Returns the model state after the epoch, the
epoch's log and its event trace. -/
def runEpoch {P B : Type} (F : LoopFns P B) (trainBs valBs : List B) (e : ℕ)
    (m : TorchModel P) :
    Except PipelineError (TorchModel P × EpochLog × List (LoopEvent P)) := do
  let t := trainPhase F e Mode.training m.params trainBs
  let trainingLossAvg ← pydiv t.2.1 trainBs.length
  let v := valPhase F e Mode.evaluation t.1 valBs
  let valLossAvg ← pydiv v.1.1 valBs.length
  let valRecallAvg ← pydiv v.1.2.1 valBs.length
  let valAccuracyAvg ← pydiv v.1.2.2.1 valBs.length
  let valPrecisionAvg ← pydiv v.1.2.2.2 valBs.length
  Except.ok (⟨t.1, Mode.evaluation⟩,
    ⟨trainingLossAvg, valLossAvg, valAccuracyAvg, valRecallAvg, valPrecisionAvg⟩,
    LoopEvent.setTrain e :: t.2.2 ++ LoopEvent.setEval e :: v.2)

/-- Loop `for epoch in range(num_epochs)`: epochs run sequentially,
threading the model state; logs and traces accumulate in order.  The
training stream is the single `train_loader` (re-iterated each epoch) and
the validation stream is the fresh `make_dataset` pass of each epoch —
both yield the same batches every epoch. -/
def runEpochs {P B : Type} (F : LoopFns P B) (trainBs valBs : List B) :
    ℕ → ℕ → TorchModel P →
    Except PipelineError (TorchModel P × List EpochLog × List (LoopEvent P))
  | 0, _, m => Except.ok (m, [], [])
  | Nat.succ n, e, m => do
    let r ← runEpoch F trainBs valBs e m
    let rest ← runEpochs F trainBs valBs n (e + 1) r.1
    Except.ok (rest.1, r.2.1 :: rest.2.1, r.2.2 ++ rest.2.2)

/-- Everything a completed `run_training_loop` call produced: the per-epoch
logs, the final model state, the full event trace, the list of parameter
blobs written by `torch.save` (in order), and the returned list
`[val_loss_avg, val_accuracy_avg, val_loss_avg, val_precision_avg]`. -/
structure RunResult (P : Type) where
  logs : List EpochLog
  model : TorchModel P
  trace : List (LoopEvent P)
  saves : List P
  ret : List ℚ
deriving DecidableEq

/-- Function `run_training_loop` from `training.py`.  After the epoch loop, `if
save: torch.save(model_fn.state_dict(), MODELS_DIR)`, then
`return [val_loss_avg, val_accuracy_avg, val_loss_avg, val_precision_avg]`
— the averages of the last epoch; with zero epochs those names are unbound
and the return raises `NameError` (after the save already happened). -/
def run_training_loop {P B : Type} (F : LoopFns P B) (save : Bool)
    (num_epochs : ℕ) (trainBs valBs : List B) (m0 : TorchModel P) :
    Except PipelineError (RunResult P) := do
  let r ← runEpochs F trainBs valBs num_epochs 0 m0
  match r.2.1.getLast? with
  | none => Except.error PipelineError.nameError
  | some last =>
    Except.ok ⟨r.2.1, r.1,
      r.2.2 ++ (if save then [LoopEvent.saveCall r.1.params] else []),
      if save then [r.1.params] else [],
      [last.valLossAvg, last.valAccuracyAvg, last.valLossAvg, last.valPrecisionAvg]⟩

/-- Python truthiness of a string literal: non-empty strings are truthy. -/
def pyTruthy (s : String) : Bool := !s.isEmpty

/-- Python's substring containment `needle in hay`. -/
def pyIn (needle hay : String) : Bool := decide (needle.toList <:+: hay.toList)

/-- The outcome of the architecture dispatch in `train` (the
`tune_hyperparams = False` branch): which model factory is invoked, or the
`raise Exception(...)` branch for an unrecognized name. -/
inductive ModelChoice
  | base
  | dynamic
  | bigger
  | resnet (name : String)
  | unsupportedError
deriving DecidableEq

/-- The architecture dispatch in `train`: `if model_name in ["base",
"Base"] ... elif ... ["dynamic", "Dynamic"] ... elif ... ["bigger",
"Bigger"] ... elif "resnet" or "Resnet" or "ResNet" in model_name: ...
else: raise Exception(...)`.  By Python precedence the fourth condition is
`"resnet" or ("Resnet" or ("ResNet" in model_name))`, whose truth value is
that of the non-empty literal `"resnet"`. -/
def selectArchitecture (model_name : String) : ModelChoice :=
  if model_name = "base" ∨ model_name = "Base" then ModelChoice.base
  else if model_name = "dynamic" ∨ model_name = "Dynamic" then ModelChoice.dynamic
  else if model_name = "bigger" ∨ model_name = "Bigger" then ModelChoice.bigger
  else if pyTruthy "resnet" || (pyTruthy "Resnet" || pyIn "ResNet" model_name) then
    ModelChoice.resnet model_name
  else ModelChoice.unsupportedError

example : selectArchitecture "base" = ModelChoice.base := by decide
example : selectArchitecture "resnet50" = ModelChoice.resnet "resnet50" := by decide
example : selectArchitecture "garbage" = ModelChoice.resnet "garbage" := by decide

/-- Concrete collaborator functions over `P = B = ℚ`, used to exercise the
loop driver on explicit inputs. -/
def Fq : LoopFns ℚ ℚ where
  lossOf p b := p + b
  step p b := p + b
  recallOf _ b := b
  accuracyOf p _ := p
  precisionOf p b := p - b

/-- A concrete initial model state. -/
def mq : TorchModel ℚ := ⟨0, Mode.training⟩

/-- The result of the concrete two-epoch run of `Fq` (no save), computed
by hand and certified below. -/
def rq2 : RunResult ℚ :=
  ⟨[⟨2, 7, 3, 4, -1⟩, ⟨5, 10, 6, 4, 2⟩], ⟨6, Mode.evaluation⟩,
   [LoopEvent.setTrain 0, LoopEvent.trainBatch 0 Mode.training true,
    LoopEvent.trainBatch 0 Mode.training true, LoopEvent.setEval 0,
    LoopEvent.valBatch 0 Mode.evaluation false,
    LoopEvent.setTrain 1, LoopEvent.trainBatch 1 Mode.training true,
    LoopEvent.trainBatch 1 Mode.training true, LoopEvent.setEval 1,
    LoopEvent.valBatch 1 Mode.evaluation false],
   [], [10, 6, 10, 2]⟩

/-- The same two-epoch run with `save = true`: identical logs, model and
returned metrics, plus the single `torch.save` of the final parameters. -/
def rq2s : RunResult ℚ :=
  ⟨rq2.logs, rq2.model, rq2.trace ++ [LoopEvent.saveCall 6], [6], rq2.ret⟩

lemma run_rq2 : run_training_loop Fq false 2 [1, 2] [4] mq = Except.ok rq2 := by
  simp only [run_training_loop, runEpochs, runEpoch, trainPhase, valPhase, pydiv,
    Fq, mq, rq2, bind, Except.bind]
  norm_num

lemma run_rq2s : run_training_loop Fq true 2 [1, 2] [4] mq = Except.ok rq2s := by
  simp only [run_training_loop, runEpochs, runEpoch, trainPhase, valPhase, pydiv,
    Fq, mq, rq2s, rq2, bind, Except.bind]
  norm_num

example :
    run_training_loop Fq false 1 ([] : List ℚ) [4] mq =
      Except.error PipelineError.zeroDivisionError := by
  simp only [run_training_loop, runEpochs, runEpoch, trainPhase, valPhase, pydiv,
    Fq, mq, bind, Except.bind]
  norm_num

example :
    run_training_loop Fq false 1 [1, 2] ([] : List ℚ) mq =
      Except.error PipelineError.zeroDivisionError := by
  simp only [run_training_loop, runEpochs, runEpoch, trainPhase, valPhase, pydiv,
    Fq, mq, bind, Except.bind]
  norm_num

example :
    run_training_loop Fq true 0 [1, 2] [4] mq =
      Except.error PipelineError.nameError := by
  simp only [run_training_loop, runEpochs, runEpoch, trainPhase, valPhase, pydiv,
    Fq, mq, bind, Except.bind]
  norm_num

/-- The epoch log produced by one epoch that starts at parameters `p`:
every field is the sum of that quantity's per-batch values divided by the
number of batches of its stream. -/
def logOf {P B : Type} (F : LoopFns P B) (tB vB : List B) (p : P) : EpochLog :=
  ⟨(trainLosses F p tB).sum / tB.length,
   (vB.map (F.lossOf (trainEndParams F p tB))).sum / vB.length,
   (vB.map (F.accuracyOf (trainEndParams F p tB))).sum / vB.length,
   (vB.map (F.recallOf (trainEndParams F p tB))).sum / vB.length,
   (vB.map (F.precisionOf (trainEndParams F p tB))).sum / vB.length⟩

/-- The event trace of one epoch: `model_fn.train()`, one event per
training batch (training mode, gradient tracking on), `model_fn.eval()`,
one event per validation batch (evaluation mode, gradient tracking off). -/
def epochTrace (P : Type) (e nT nV : ℕ) : List (LoopEvent P) :=
  LoopEvent.setTrain e ::
    List.replicate nT (LoopEvent.trainBatch e Mode.training true) ++
    LoopEvent.setEval e ::
    List.replicate nV (LoopEvent.valBatch e Mode.evaluation false)

/-- The parameters after `n` epochs' training passes over the training
stream (the validation pass never changes parameters). -/
def paramsAfterEpochs {P B : Type} (F : LoopFns P B) (tB : List B) : ℕ → P → P
  | 0, p => p
  | Nat.succ n, p => paramsAfterEpochs F tB n (trainEndParams F p tB)

lemma trainPhase_eq {P B : Type} (F : LoopFns P B) (e : ℕ) (mode : Mode) (p : P)
    (bs : List B) :
    trainPhase F e mode p bs =
      (trainEndParams F p bs, (trainLosses F p bs).sum,
       List.replicate bs.length (LoopEvent.trainBatch e mode true)) := by
  induction bs generalizing p with
  | nil => simp [trainPhase, trainEndParams, trainLosses]
  | cons b bs ih =>
    simp [trainPhase, trainEndParams, trainLosses, ih, List.replicate_succ]

lemma valPhase_eq {P B : Type} (F : LoopFns P B) (e : ℕ) (mode : Mode) (p : P)
    (bs : List B) :
    valPhase F e mode p bs =
      (((bs.map (F.lossOf p)).sum, (bs.map (F.recallOf p)).sum,
        (bs.map (F.accuracyOf p)).sum, (bs.map (F.precisionOf p)).sum),
       List.replicate bs.length (LoopEvent.valBatch e mode false)) := by
  induction bs with
  | nil => simp [valPhase]
  | cons b bs ih => simp [valPhase, ih, List.replicate_succ]

lemma runEpoch_eq {P B : Type} (F : LoopFns P B) (tB vB : List B) (e : ℕ)
    (m : TorchModel P) (hT : tB ≠ []) (hV : vB ≠ []) :
    runEpoch F tB vB e m = Except.ok
      (⟨trainEndParams F m.params tB, Mode.evaluation⟩, logOf F tB vB m.params,
       epochTrace P e tB.length vB.length) := by
  have hT' : tB.length ≠ 0 := by simpa using hT
  have hV' : vB.length ≠ 0 := by simpa using hV
  simp [runEpoch, trainPhase_eq, valPhase_eq, pydiv, hT', hV', bind, Except.bind,
    logOf, epochTrace]

lemma runEpoch_zero {P B : Type} (F : LoopFns P B) (tB vB : List B) (e : ℕ)
    (m : TorchModel P) (h : tB = [] ∨ vB = []) :
    runEpoch F tB vB e m = Except.error PipelineError.zeroDivisionError := by
  rcases h with h | h
  · subst h
    simp [runEpoch, pydiv, bind, Except.bind]
  · subst h
    by_cases hT : tB.length = 0
    · simp [runEpoch, pydiv, hT, bind, Except.bind]
    · simp [runEpoch, pydiv, hT, bind, Except.bind]

lemma runEpoch_ok_inv {P B : Type} (F : LoopFns P B) (tB vB : List B) (e : ℕ)
    (m : TorchModel P) (r : TorchModel P × EpochLog × List (LoopEvent P))
    (h : runEpoch F tB vB e m = Except.ok r) :
    tB ≠ [] ∧ vB ≠ [] ∧
      r = (⟨trainEndParams F m.params tB, Mode.evaluation⟩, logOf F tB vB m.params,
           epochTrace P e tB.length vB.length) := by
  by_cases hT : tB = []
  · rw [runEpoch_zero F tB vB e m (Or.inl hT)] at h
    cases h
  · by_cases hV : vB = []
    · rw [runEpoch_zero F tB vB e m (Or.inr hV)] at h
      cases h
    · rw [runEpoch_eq F tB vB e m hT hV] at h
      exact ⟨hT, hV, (Except.ok.inj h).symm⟩

/-- Checks the mode discipline of one observable event: a training batch
must be processed in training mode with gradient tracking on, a validation
batch in evaluation mode with gradient tracking off. -/
def eventModesOk {P : Type} : LoopEvent P → Bool
  | LoopEvent.trainBatch _ Mode.training true => true
  | LoopEvent.trainBatch _ _ _ => false
  | LoopEvent.valBatch _ Mode.evaluation false => true
  | LoopEvent.valBatch _ _ _ => false
  | _ => true

lemma epochTrace_ok {P : Type} (e nT nV : ℕ) :
    ∀ ev ∈ epochTrace P e nT nV, eventModesOk ev = true := by
  intro ev hev
  simp only [epochTrace, List.mem_cons, List.mem_append, List.mem_replicate] at hev
  rcases hev with (rfl | ⟨-, rfl⟩) | (rfl | ⟨-, rfl⟩) <;> rfl

lemma runEpochs_ok_inv {P B : Type} (F : LoopFns P B) (tB vB : List B) :
    ∀ (n e : ℕ) (m : TorchModel P)
      (res : TorchModel P × List EpochLog × List (LoopEvent P)),
      runEpochs F tB vB n e m = Except.ok res →
      res.2.1.length = n ∧
      res.1.params = paramsAfterEpochs F tB n m.params ∧
      (n ≠ 0 → res.1.mode = Mode.evaluation) ∧
      (n = 0 → res.1 = m) ∧
      (∀ log ∈ res.2.1, ∃ p : P, log = logOf F tB vB p) ∧
      (∀ ev ∈ res.2.2, eventModesOk ev = true) := by
  intro n
  induction n with
  | zero =>
    intro e m res h
    simp only [runEpochs] at h
    have hres := (Except.ok.inj h).symm
    subst hres
    simp [paramsAfterEpochs]
  | succ n ih =>
    intro e m res h
    cases hE : runEpoch F tB vB e m with
    | error err =>
      simp [runEpochs, bind, Except.bind, hE] at h
    | ok r =>
      cases hR : runEpochs F tB vB n (e + 1) r.1 with
      | error err =>
        simp [runEpochs, bind, Except.bind, hE, hR] at h
      | ok rest =>
        simp only [runEpochs, bind, Except.bind, hE, hR, Except.ok.injEq] at h
        subst h
        obtain ⟨hT, hV, hr⟩ := runEpoch_ok_inv F tB vB e m r hE
        obtain ⟨hlen, hparams, hmode, hzero, hlogs, hevs⟩ :=
          ih (e + 1) r.1 rest hR
        subst hr
        refine ⟨by simp [hlen], ?_, ?_, ?_, ?_, ?_⟩
        · simpa [paramsAfterEpochs] using hparams
        · intro _
          rcases Nat.eq_zero_or_pos n with hn | hn
          · subst hn
            rw [hzero rfl]
          · exact hmode (Nat.pos_iff_ne_zero.mp hn)
        · intro hc
          exact absurd hc (Nat.succ_ne_zero n)
        · intro log hlog
          rcases List.mem_cons.mp hlog with rfl | hlog
          · exact ⟨m.params, rfl⟩
          · exact hlogs log hlog
        · intro ev hev
          rcases List.mem_append.mp hev with hev | hev
          · exact epochTrace_ok e tB.length vB.length ev hev
          · exact hevs ev hev

lemma run_ok_inv {P B : Type} (F : LoopFns P B) (save : Bool) (n : ℕ)
    (tB vB : List B) (m0 : TorchModel P) (r : RunResult P)
    (h : run_training_loop F save n tB vB m0 = Except.ok r) :
    ∃ res last, runEpochs F tB vB n 0 m0 = Except.ok res ∧
      res.2.1.getLast? = some last ∧
      r = ⟨res.2.1, res.1,
           res.2.2 ++ (if save then [LoopEvent.saveCall res.1.params] else []),
           if save then [res.1.params] else [],
           [last.valLossAvg, last.valAccuracyAvg, last.valLossAvg,
            last.valPrecisionAvg]⟩ := by
  cases hE : runEpochs F tB vB n 0 m0 with
  | error err =>
    simp [run_training_loop, bind, Except.bind, hE] at h
  | ok res =>
    cases hL : res.2.1.getLast? with
    | none =>
      simp [run_training_loop, bind, Except.bind, hE, hL] at h
    | some last =>
      simp only [run_training_loop, bind, Except.bind, hE, hL] at h
      exact ⟨res, last, rfl, hL, (Except.ok.inj h).symm⟩

/-- C1: for every epoch of a completed run whose training stream yields
N ≥ 1 batches and whose validation stream yields M ≥ 1 batches, the
reported average training loss equals the sum of the per-batch training
loss values divided by N, and each reported validation average (loss,
accuracy, recall, precision) equals the sum of that quantity's per-batch
values divided by M — divided by the number of batches observed, not by
the number of samples. -/
theorem C1_averages_are_batch_sums_over_counts {P B : Type} (F : LoopFns P B)
    (save : Bool) (num_epochs : ℕ) (trainBs valBs : List B) (m0 : TorchModel P)
    (r : RunResult P) (hN : 1 ≤ trainBs.length) (hM : 1 ≤ valBs.length)
    (hok : run_training_loop F save num_epochs trainBs valBs m0 = Except.ok r) :
    ∀ log ∈ r.logs, ∃ p : P,
      log.trainingLossAvg = (trainLosses F p trainBs).sum / trainBs.length ∧
      log.valLossAvg =
        (valBs.map (F.lossOf (trainEndParams F p trainBs))).sum / valBs.length ∧
      log.valAccuracyAvg =
        (valBs.map (F.accuracyOf (trainEndParams F p trainBs))).sum / valBs.length ∧
      log.valRecallAvg =
        (valBs.map (F.recallOf (trainEndParams F p trainBs))).sum / valBs.length ∧
      log.valPrecisionAvg =
        (valBs.map (F.precisionOf (trainEndParams F p trainBs))).sum / valBs.length := by
  obtain ⟨res, last, hE, hL, hr⟩ :=
    run_ok_inv F save num_epochs trainBs valBs m0 r hok
  obtain ⟨-, -, -, -, hlogs, -⟩ :=
    runEpochs_ok_inv F trainBs valBs num_epochs 0 m0 res hE
  subst hr
  intro log hlog
  obtain ⟨p, hp⟩ := hlogs log hlog
  exact ⟨p, by rw [hp]; exact ⟨rfl, rfl, rfl, rfl, rfl⟩⟩

/-- C1 witness: the theorem applied to the concrete two-epoch run of `Fq`
over training stream `[1, 2]` and validation stream `[4]`, specialized to
the first epoch's log `⟨2, 7, 3, 4, -1⟩`. -/
theorem C1_averages_are_batch_sums_over_counts_witness :
    ∃ p : ℚ,
      (2 : ℚ) =
        (trainLosses Fq p [1, 2]).sum / ([1, 2] : List ℚ).length ∧
      (7 : ℚ) =
        (([4] : List ℚ).map (Fq.lossOf (trainEndParams Fq p [1, 2]))).sum /
          ([4] : List ℚ).length ∧
      (3 : ℚ) =
        (([4] : List ℚ).map (Fq.accuracyOf (trainEndParams Fq p [1, 2]))).sum /
          ([4] : List ℚ).length ∧
      (4 : ℚ) =
        (([4] : List ℚ).map (Fq.recallOf (trainEndParams Fq p [1, 2]))).sum /
          ([4] : List ℚ).length ∧
      (-1 : ℚ) =
        (([4] : List ℚ).map (Fq.precisionOf (trainEndParams Fq p [1, 2]))).sum /
          ([4] : List ℚ).length :=
  C1_averages_are_batch_sums_over_counts Fq false 2 [1, 2] [4] mq rq2
    (by norm_num) (by norm_num) run_rq2 ⟨2, 7, 3, 4, -1⟩ (by simp [rq2])

/-- C3 counterexample: with zero training batches the run fails with the
unguarded division's ZeroDivisionError, not with an EmptyDataset error as
the claim states. -/
theorem C3_counterexample :
    run_training_loop Fq false 1 ([] : List ℚ) [4] mq =
        Except.error PipelineError.zeroDivisionError ∧
      run_training_loop Fq false 1 ([] : List ℚ) [4] mq ≠
        Except.error PipelineError.emptyDataset := by
  have h : run_training_loop Fq false 1 ([] : List ℚ) [4] mq =
      Except.error PipelineError.zeroDivisionError := by
    simp only [run_training_loop, runEpochs, runEpoch, trainPhase, valPhase, pydiv,
      Fq, mq, bind, Except.bind]
    norm_num
  refine ⟨h, ?_⟩
  rw [h]
  intro hc
  cases hc

/-- C3 (amended): if the training data provider or the validation data
provider yields zero batches for an epoch, the run fails with the
unguarded division's ZeroDivisionError, surfaced to the caller; it never
silently returns 0 or NaN as an average (no EmptyDataset guard exists). -/
theorem C3_empty_stream_crashes {P B : Type} (F : LoopFns P B) (save : Bool)
    (n : ℕ) (trainBs valBs : List B) (m0 : TorchModel P)
    (hn : 1 ≤ n) (h : trainBs = [] ∨ valBs = []) :
    run_training_loop F save n trainBs valBs m0 =
      Except.error PipelineError.zeroDivisionError := by
  obtain ⟨k, rfl⟩ : ∃ k, n = k + 1 := ⟨n - 1, by omega⟩
  have hE : runEpochs F trainBs valBs (k + 1) 0 m0 =
      Except.error PipelineError.zeroDivisionError := by
    simp [runEpochs, bind, Except.bind, runEpoch_zero F trainBs valBs 0 m0 h]
  simp [run_training_loop, bind, Except.bind, hE]

/-- C3 witness: the amended theorem applied to an empty training stream. -/
theorem C3_empty_stream_crashes_witness :
    run_training_loop Fq false 1 ([] : List ℚ) [4] mq =
      Except.error PipelineError.zeroDivisionError :=
  C3_empty_stream_crashes Fq false 1 [] [4] mq (by norm_num) (Or.inl rfl)

/-- C6: in every completed run, every training batch is processed with the
model in training mode and gradient tracking on, every validation batch
with the model in evaluation mode and gradient tracking off (so each new
epoch's phase T is back in training mode after the previous epoch's phase
V), and after the final phase V the model is in evaluation mode. -/
theorem C6_mode_discipline {P B : Type} (F : LoopFns P B) (save : Bool)
    (num_epochs : ℕ) (trainBs valBs : List B) (m0 : TorchModel P)
    (r : RunResult P)
    (hok : run_training_loop F save num_epochs trainBs valBs m0 = Except.ok r) :
    (∀ ev ∈ r.trace, eventModesOk ev = true) ∧ r.model.mode = Mode.evaluation := by
  obtain ⟨res, last, hE, hL, hr⟩ :=
    run_ok_inv F save num_epochs trainBs valBs m0 r hok
  obtain ⟨hlen, -, hmode, -, -, hevs⟩ :=
    runEpochs_ok_inv F trainBs valBs num_epochs 0 m0 res hE
  subst hr
  constructor
  · intro ev hev
    rcases List.mem_append.mp hev with hev | hev
    · exact hevs ev hev
    · cases save with
      | false => simp at hev
      | true =>
        simp at hev
        subst hev
        rfl
  · have hne : res.2.1 ≠ [] := by
      intro hc
      rw [hc] at hL
      cases hL
    have hne' : num_epochs ≠ 0 := by
      rw [← hlen]
      simpa [List.length_eq_zero] using hne
    exact hmode hne'

/-- C6 witness: the theorem applied to the concrete two-epoch run, whose
trace covers two consecutive epochs. -/
theorem C6_mode_discipline_witness :
    (∀ ev ∈ rq2.trace, eventModesOk ev = true) ∧
      rq2.model.mode = Mode.evaluation :=
  C6_mode_discipline Fq false 2 [1, 2] [4] mq rq2 run_rq2

/-- C7: every completed run produced one log per epoch and returns, as an
ordered sequence, the final epoch's averaged validation quantities in the
order: loss, accuracy, loss again, precision — the duplicated loss in
place of a distinct fourth metric. -/
theorem C7_return_is_loss_acc_loss_prec {P B : Type} (F : LoopFns P B)
    (save : Bool) (num_epochs : ℕ) (trainBs valBs : List B) (m0 : TorchModel P)
    (r : RunResult P)
    (hok : run_training_loop F save num_epochs trainBs valBs m0 = Except.ok r) :
    r.logs.length = num_epochs ∧
    ∃ last, r.logs.getLast? = some last ∧
      r.ret = [last.valLossAvg, last.valAccuracyAvg, last.valLossAvg,
               last.valPrecisionAvg] := by
  obtain ⟨res, last, hE, hL, hr⟩ :=
    run_ok_inv F save num_epochs trainBs valBs m0 r hok
  obtain ⟨hlen, -, -, -, -, -⟩ :=
    runEpochs_ok_inv F trainBs valBs num_epochs 0 m0 res hE
  subst hr
  exact ⟨hlen, last, hL, rfl⟩

/-- C7 witness: the theorem applied to the concrete two-epoch run. -/
theorem C7_return_is_loss_acc_loss_prec_witness :
    rq2.logs.length = 2 ∧
    ∃ last, rq2.logs.getLast? = some last ∧
      rq2.ret = [last.valLossAvg, last.valAccuracyAvg, last.valLossAvg,
                 last.valPrecisionAvg] :=
  C7_return_is_loss_acc_loss_prec Fq false 2 [1, 2] [4] mq rq2 run_rq2

/-- C9: for a completed run with save = true, exactly one durable-storage
write occurs, its blob is the model's post-training parameter state (the
parameters after all epochs' training passes), and it happens after every
epoch event; with save = false no write occurs; logs, returned metrics and
final model state are identical in the two runs. -/
theorem C9_save_exactly_once_after_loop {P B : Type} (F : LoopFns P B)
    (num_epochs : ℕ) (trainBs valBs : List B) (m0 : TorchModel P)
    (rs rn : RunResult P)
    (hs : run_training_loop F true num_epochs trainBs valBs m0 = Except.ok rs)
    (hn : run_training_loop F false num_epochs trainBs valBs m0 = Except.ok rn) :
    rs.saves = [rs.model.params] ∧
    rs.model.params = paramsAfterEpochs F trainBs num_epochs m0.params ∧
    rs.trace = rn.trace ++ [LoopEvent.saveCall rs.model.params] ∧
    rn.saves = [] ∧
    rs.logs = rn.logs ∧ rs.ret = rn.ret ∧ rs.model = rn.model := by
  obtain ⟨res, last, hE, hL, hr⟩ :=
    run_ok_inv F true num_epochs trainBs valBs m0 rs hs
  obtain ⟨res', last', hE', hL', hr'⟩ :=
    run_ok_inv F false num_epochs trainBs valBs m0 rn hn
  rw [hE] at hE'
  have hres := Except.ok.inj hE'
  subst hres
  rw [hL] at hL'
  have hlast := Option.some.inj hL'
  subst hlast
  obtain ⟨-, hparams, -, -, -, -⟩ :=
    runEpochs_ok_inv F trainBs valBs num_epochs 0 m0 res hE
  subst hr
  subst hr'
  exact ⟨rfl, hparams, by simp, rfl, rfl, rfl, rfl⟩

/-- C9 witness: the theorem applied to the concrete two-epoch run, with
and without save. -/
theorem C9_save_exactly_once_after_loop_witness :
    rq2s.saves = [rq2s.model.params] ∧
    rq2s.model.params = paramsAfterEpochs Fq [1, 2] 2 mq.params ∧
    rq2s.trace = rq2.trace ++ [LoopEvent.saveCall rq2s.model.params] ∧
    rq2.saves = [] ∧
    rq2s.logs = rq2.logs ∧ rq2s.ret = rq2.ret ∧ rq2s.model = rq2.model :=
  C9_save_exactly_once_after_loop Fq 2 [1, 2] [4] mq rq2s rq2 run_rq2s run_rq2

/-- C2 counterexample: with an unrecognized name but an absent (None)
weight_decay, resolution fails with the eagerly-run Adam constructor's
TypeError (invalidParam) — not with the UnsupportedOptimizer error the
claim states, which is never reached. -/
theorem C2_counterexample :
    get_optimizer (some "unknown") 1 none (some 0) =
        Except.error PipelineError.invalidParam ∧
      get_optimizer (some "unknown") 1 none (some 0) ≠
        Except.error PipelineError.unsupportedOptimizer := by
  constructor
  · decide
  · decide

/-- C2 (amended): for every call with a supplied name matching none of the
recognized spellings, resolution never returns an optimizer — it never
silently defaults; and whenever the three eagerly-constructed optimizers
accept the supplied hyperparameters (weight_decay and momentum present and
nonnegative, learning rate nonnegative), the failure is specifically the
UnsupportedOptimizer error. -/
theorem C2_unknown_name_never_defaults (name : String) (lr : ℚ)
    (wd mo : Option ℚ)
    (hname : name ≠ "adam" ∧ name ≠ "Adam" ∧ name ≠ "sgd" ∧ name ≠ "SGD" ∧
      name ≠ "rmsprop" ∧ name ≠ "RMSprop" ∧ name ≠ "RMSProp") :
    (∀ cfg : OptimizerCfg, get_optimizer (some name) lr wd mo ≠ Except.ok cfg) ∧
    (∀ w m : ℚ, wd = some w → mo = some m → 0 ≤ lr → 0 ≤ w → 0 ≤ m →
      get_optimizer (some name) lr wd mo =
        Except.error PipelineError.unsupportedOptimizer) := by
  obtain ⟨h1, h2, h3, h4, h5, h6, h7⟩ := hname
  constructor
  · intro cfg hcfg
    cases hA : torchAdam lr wd with
    | error e => simp [get_optimizer, bind, Except.bind, hA] at hcfg
    | ok a =>
      cases hS : torchSGD lr mo wd with
      | error e => simp [get_optimizer, bind, Except.bind, hA, hS] at hcfg
      | ok s =>
        cases hR : torchRMSprop lr wd mo with
        | error e => simp [get_optimizer, bind, Except.bind, hA, hS, hR] at hcfg
        | ok rr =>
          simp [get_optimizer, bind, Except.bind, hA, hS, hR,
            h1, h2, h3, h4, h5, h6, h7] at hcfg
  · intro w m hw hm hlr hw0 hm0
    subst hw
    subst hm
    have hA : torchAdam lr (some w) =
        Except.ok ⟨OptimizerFamily.adam, lr, w, none⟩ := by
      simp [torchAdam, not_lt.mpr hlr, not_lt.mpr hw0]
    have hS : torchSGD lr (some m) (some w) =
        Except.ok ⟨OptimizerFamily.sgd, lr, w, some m⟩ := by
      simp [torchSGD, not_lt.mpr hlr, not_lt.mpr hw0, not_lt.mpr hm0]
    have hR : torchRMSprop lr (some w) (some m) =
        Except.ok ⟨OptimizerFamily.rmsprop, lr, w, some m⟩ := by
      simp [torchRMSprop, not_lt.mpr hlr, not_lt.mpr hw0, not_lt.mpr hm0]
    simp [get_optimizer, bind, Except.bind, hA, hS, hR, h1, h2, h3, h4, h5, h6, h7]

/-- C2 witness: the amended theorem at a concrete unknown name with valid
hyperparameters. -/
theorem C2_unknown_name_never_defaults_witness :
    get_optimizer (some "unknown") 1 (some 0) (some 0) ≠
        Except.ok ⟨OptimizerFamily.adam, 1, 0, none⟩ ∧
      get_optimizer (some "unknown") 1 (some 0) (some 0) =
        Except.error PipelineError.unsupportedOptimizer :=
  ⟨(C2_unknown_name_never_defaults "unknown" 1 (some 0) (some 0) (by decide)).1 _,
   (C2_unknown_name_never_defaults "unknown" 1 (some 0) (some 0) (by decide)).2
     0 0 rfl rfl (by norm_num) (by norm_num) (by norm_num)⟩

/-- C4: the resolver evaluated at the failing input — name "adam" with
weight_decay and momentum absent (None).  Resolution fails with the
constructors' TypeError instead of succeeding with the family's neutral
defaults as the claim states. -/
theorem C4_absent_hyperparams_crash :
    get_optimizer (some "adam") 1 none none =
      Except.error PipelineError.invalidParam := by decide

/-- C5 counterexample: matching is not case-insensitive — the casing
variant "ADAM" of the adam family's identifier fails with
UnsupportedOptimizer instead of resolving to that family. -/
theorem C5_counterexample :
    get_optimizer (some "ADAM") 1 (some 0) (some 0) =
      Except.error PipelineError.unsupportedOptimizer := by decide

/-- C5 (amended): each family's recognized spellings — exactly adam/Adam,
sgd/SGD and rmsprop/RMSprop/RMSProp (two, two and three spellings; no
family has four) — resolve, for hyperparameters all three constructors
accept, to an optimizer of that same family with identical
hyperparameters; matching is exact-string, not case-insensitive. -/
theorem C5_listed_spellings_same_family (lr w m : ℚ)
    (hlr : 0 ≤ lr) (hw : 0 ≤ w) (hm : 0 ≤ m) :
    (get_optimizer (some "adam") lr (some w) (some m) =
        Except.ok ⟨OptimizerFamily.adam, lr, w, none⟩ ∧
      get_optimizer (some "Adam") lr (some w) (some m) =
        Except.ok ⟨OptimizerFamily.adam, lr, w, none⟩) ∧
    (get_optimizer (some "sgd") lr (some w) (some m) =
        Except.ok ⟨OptimizerFamily.sgd, lr, w, some m⟩ ∧
      get_optimizer (some "SGD") lr (some w) (some m) =
        Except.ok ⟨OptimizerFamily.sgd, lr, w, some m⟩) ∧
    (get_optimizer (some "rmsprop") lr (some w) (some m) =
        Except.ok ⟨OptimizerFamily.rmsprop, lr, w, some m⟩ ∧
      get_optimizer (some "RMSprop") lr (some w) (some m) =
        Except.ok ⟨OptimizerFamily.rmsprop, lr, w, some m⟩ ∧
      get_optimizer (some "RMSProp") lr (some w) (some m) =
        Except.ok ⟨OptimizerFamily.rmsprop, lr, w, some m⟩) := by
  have hA : torchAdam lr (some w) =
      Except.ok ⟨OptimizerFamily.adam, lr, w, none⟩ := by
    simp [torchAdam, not_lt.mpr hlr, not_lt.mpr hw]
  have hS : torchSGD lr (some m) (some w) =
      Except.ok ⟨OptimizerFamily.sgd, lr, w, some m⟩ := by
    simp [torchSGD, not_lt.mpr hlr, not_lt.mpr hw, not_lt.mpr hm]
  have hR : torchRMSprop lr (some w) (some m) =
      Except.ok ⟨OptimizerFamily.rmsprop, lr, w, some m⟩ := by
    simp [torchRMSprop, not_lt.mpr hlr, not_lt.mpr hw, not_lt.mpr hm]
  refine ⟨⟨?_, ?_⟩, ⟨?_, ?_⟩, ⟨?_, ?_, ?_⟩⟩ <;>
    simp [get_optimizer, bind, Except.bind, hA, hS, hR]

/-- C5 witness: the amended theorem at concrete hyperparameters. -/
theorem C5_listed_spellings_same_family_witness :
    (get_optimizer (some "adam") 1 (some 0) (some 0) =
        Except.ok ⟨OptimizerFamily.adam, 1, 0, none⟩ ∧
      get_optimizer (some "Adam") 1 (some 0) (some 0) =
        Except.ok ⟨OptimizerFamily.adam, 1, 0, none⟩) ∧
    (get_optimizer (some "sgd") 1 (some 0) (some 0) =
        Except.ok ⟨OptimizerFamily.sgd, 1, 0, some 0⟩ ∧
      get_optimizer (some "SGD") 1 (some 0) (some 0) =
        Except.ok ⟨OptimizerFamily.sgd, 1, 0, some 0⟩) ∧
    (get_optimizer (some "rmsprop") 1 (some 0) (some 0) =
        Except.ok ⟨OptimizerFamily.rmsprop, 1, 0, some 0⟩ ∧
      get_optimizer (some "RMSprop") 1 (some 0) (some 0) =
        Except.ok ⟨OptimizerFamily.rmsprop, 1, 0, some 0⟩ ∧
      get_optimizer (some "RMSProp") 1 (some 0) (some 0) =
        Except.ok ⟨OptimizerFamily.rmsprop, 1, 0, some 0⟩) :=
  C5_listed_spellings_same_family 1 0 0 (by norm_num) (by norm_num) (by norm_num)

/-- C10: the resolver eagerly constructs and binds all three optimizer
families before any name matching, so resolution fails whenever any
family's constructor rejects the supplied hyperparameters — whatever name
was requested, or none. -/
theorem C10_eager_construction_raises (name : Option String) (lr : ℚ)
    (wd mo : Option ℚ)
    (h : (∃ e, torchAdam lr wd = Except.error e) ∨
         (∃ e, torchSGD lr mo wd = Except.error e) ∨
         (∃ e, torchRMSprop lr wd mo = Except.error e)) :
    ∃ e, get_optimizer name lr wd mo = Except.error e := by
  cases hA : torchAdam lr wd with
  | error e => exact ⟨e, by simp [get_optimizer, bind, Except.bind, hA]⟩
  | ok a =>
    cases hS : torchSGD lr mo wd with
    | error e => exact ⟨e, by simp [get_optimizer, bind, Except.bind, hA, hS]⟩
    | ok s =>
      cases hR : torchRMSprop lr wd mo with
      | error e =>
        exact ⟨e, by simp [get_optimizer, bind, Except.bind, hA, hS, hR]⟩
      | ok rr =>
        exfalso
        rcases h with ⟨e, he⟩ | ⟨e, he⟩ | ⟨e, he⟩ <;> simp_all

/-- C10 witness: momentum absent — Adam itself accepts these
hyperparameters, yet resolving "adam" fails because the eagerly-built SGD
constructor rejects the absent momentum. -/
theorem C10_eager_construction_raises_witness :
    torchAdam 1 (some 0) = Except.ok ⟨OptimizerFamily.adam, 1, 0, none⟩ ∧
    ∃ e, get_optimizer (some "adam") 1 (some 0) none = Except.error e :=
  ⟨by decide,
   C10_eager_construction_raises (some "adam") 1 (some 0) none
     (Or.inr (Or.inl ⟨PipelineError.invalidParam, by decide⟩))⟩

/-- C8: the architecture dispatch evaluated at the failing input
"garbage", and in general: the condition `"resnet" or "Resnet" or
"ResNet" in model_name` is always truthy, so every unrecognized name is
routed to the ResNet factory and the raise branch for unsupported
architectures is unreachable — `train` itself never raises the
UnsupportedArchitecture error the claim states. -/
theorem C8_unsupported_branch_unreachable :
    selectArchitecture "garbage" = ModelChoice.resnet "garbage" ∧
    ∀ name : String, selectArchitecture name ≠ ModelChoice.unsupportedError := by
  constructor
  · decide
  · intro name hc
    have hres : pyTruthy "resnet" = true := rfl
    rw [selectArchitecture] at hc
    split_ifs at hc with h1 h2 h3 h4
    all_goals first
      | exact ModelChoice.noConfusion hc
      | exact absurd (by simp [hres] : (pyTruthy "resnet" ||
          (pyTruthy "Resnet" || pyIn "ResNet" name)) = true) h4

/-- C8 witness: the theorem instantiated at concrete names. -/
theorem C8_unsupported_branch_unreachable_witness :
    selectArchitecture "garbage" = ModelChoice.resnet "garbage" ∧
      selectArchitecture "mystery" ≠ ModelChoice.unsupportedError :=
  ⟨C8_unsupported_branch_unreachable.1,
   C8_unsupported_branch_unreachable.2 "mystery"⟩

end MushroomTraining
